import Mathlib

set_option maxRecDepth 8000

namespace BrowserPilot

/-- Action and instruction texts are modelled as lists of characters,
mirroring Python strings. -/
abbrev Str := List Char

/-- Bool test that the needle is an initial segment of the haystack
(Python str.startswith). -/
def strStartsWith : Str → Str → Bool
  | [], _ => true
  | _ :: _, [] => false
  | a :: xs, b :: ys => decide (a = b) && strStartsWith xs ys

/-- Bool test for Python's substring containment operator on strings. -/
def strContains (needle : Str) : Str → Bool
  | [] => needle.isEmpty
  | c :: rest => strStartsWith needle (c :: rest) || strContains needle rest

/-- Fuel-indexed replacement of every non-overlapping occurrence of the needle
(scanning left to right) by repl, following Python str.replace. The fuel is an
upper bound on the scan length; replaceSub instantiates it with the haystack
length, which always suffices. -/
def replaceSubFuel (needle repl : Str) : Nat → Str → Str
  | 0, l => l
  | _ + 1, [] => []
  | fuel + 1, c :: rest =>
    if needle ≠ [] ∧ strStartsWith needle (c :: rest) = true then
      repl ++ replaceSubFuel needle repl fuel ((c :: rest).drop needle.length)
    else
      c :: replaceSubFuel needle repl fuel rest

/-- Python str.replace for a nonempty needle. -/
def replaceSub (needle repl l : Str) : Str := replaceSubFuel needle repl l.length l

/-- Denylist of library names from GPTSeleniumAgent._is_potentially_dangerous
(source lines 79-83). -/
def blacklisted_libraries : List Str := ["shutil".data, "requests".data, "urllib".data]

/-- Shallow embedding of GPTSeleniumAgent._is_potentially_dangerous (source
lines 73-91): flags code containing the substring "import " or any blacklisted
library name. -/
def _is_potentially_dangerous (code_str : Str) : Bool :=
  if strContains ("import ".data) code_str then true
  else if blacklisted_libraries.any (fun library => strContains library code_str) then true
  else false

lemma strStartsWith_iff (needle l : Str) : strStartsWith needle l = true ↔ needle <+: l := by
  induction needle generalizing l with
  | nil =>
    simp only [strStartsWith]
    exact iff_of_true trivial ⟨l, rfl⟩
  | cons a xs ih =>
    cases l with
    | nil =>
      simp only [strStartsWith]
      constructor
      · intro h; cases h
      · rintro ⟨t, ht⟩; cases ht
    | cons b ys =>
      simp only [strStartsWith, Bool.and_eq_true, decide_eq_true_eq, ih]
      constructor
      · rintro ⟨rfl, t, rfl⟩
        exact ⟨t, rfl⟩
      · rintro ⟨t, ht⟩
        injection ht with h1 h2
        exact ⟨h1, t, h2⟩

lemma strContains_iff (needle l : Str) : strContains needle l = true ↔ needle <:+: l := by
  induction l with
  | nil =>
    simp only [strContains, List.isEmpty_iff]
    constructor
    · rintro rfl; exact ⟨[], [], rfl⟩
    · rintro ⟨s, t, h⟩
      rcases List.append_eq_nil.mp h with ⟨h1, h2⟩
      exact (List.append_eq_nil.mp h1).2
  | cons c rest ih =>
    simp only [strContains, Bool.or_eq_true, strStartsWith_iff, ih]
    constructor
    · rintro (⟨t, ht⟩ | ⟨s, t, h⟩)
      · exact ⟨[], t, by simpa using ht⟩
      · exact ⟨c :: s, t, by simp [h]⟩
    · rintro ⟨s, t, h⟩
      cases s with
      | nil => exact Or.inl ⟨t, by simpa using h⟩
      | cons c' s' =>
        injection h with h1 h2
        exact Or.inr ⟨s', t, h2⟩

lemma dangerous_char_iff (s : Str) :
    _is_potentially_dangerous s = true ↔
      ("import ".data <:+: s ∨ ∃ library ∈ blacklisted_libraries, library <:+: s) := by
  have h : _is_potentially_dangerous s =
      (strContains ("import ".data) s ||
        blacklisted_libraries.any (fun library => strContains library s)) := by
    unfold _is_potentially_dangerous
    by_cases h1 : strContains ("import ".data) s = true <;>
      by_cases h2 : blacklisted_libraries.any (fun library => strContains library s) = true <;>
      simp [h1, h2]
  rw [h]
  simp only [Bool.or_eq_true, List.any_eq_true, strContains_iff]

/-- Claim C3: the safety predicate flags exactly the action texts containing the
substring "import " or one of the blacklisted library names shutil, requests,
urllib, and accepts every other text. -/
theorem safety_gate_characterization (s : Str) :
    _is_potentially_dangerous s = true ↔
      ("import ".data <:+: s ∨ ∃ library ∈ blacklisted_libraries, library <:+: s) :=
  dangerous_char_iff s

/-- Shallow embedding of the code-fence stripping applied by the engine, Python
str.replace of triple backticks by the empty string. -/
def stripTicks (l : Str) : Str := replaceSub ("```".data) [] l

lemma replaceSubFuel_front (needle repl : Str) :
    ∀ x : Str, (∀ ch ∈ x, ch ∉ needle) →
      ∀ fuel l, x <+: l → x <+: replaceSubFuel needle repl fuel l := by
  intro x
  induction x with
  | nil => intro _ fuel l _; exact ⟨replaceSubFuel needle repl fuel l, rfl⟩
  | cons c x' ih =>
    intro hd fuel l h
    obtain ⟨t, rfl⟩ := h
    cases fuel with
    | zero => exact ⟨t, rfl⟩
    | succ fuel =>
      have hcond : ¬(needle ≠ [] ∧ strStartsWith needle (c :: (x' ++ t)) = true) := by
        rintro ⟨hne, hsw⟩
        cases needle with
        | nil => exact hne rfl
        | cons nh nt =>
          simp only [strStartsWith, Bool.and_eq_true, decide_eq_true_eq] at hsw
          exact hd c (List.mem_cons_self c x') (List.mem_cons.mpr (Or.inl hsw.1.symm))
      have hx' : x' <+: replaceSubFuel needle repl fuel (x' ++ t) :=
        ih (fun ch hch => hd ch (List.mem_cons_of_mem c hch)) fuel (x' ++ t) ⟨t, rfl⟩
      obtain ⟨t', ht'⟩ := hx'
      refine ⟨t', ?_⟩
      show (c :: x') ++ t' = replaceSubFuel needle repl (fuel + 1) ((c :: x') ++ t)
      simp only [List.cons_append, replaceSubFuel, List.append_eq]
      rw [if_neg hcond, ← ht']

lemma strStartsWith_length_le (x b : Str) (hx : x ≠ []) :
    ∀ a needle : Str, needle ≠ [] → (∀ ch ∈ x, ch ∉ needle) →
      strStartsWith needle (a ++ (x ++ b)) = true → needle.length ≤ a.length := by
  intro a
  induction a with
  | nil =>
    intro needle hne hd hsw
    exfalso
    cases needle with
    | nil => exact hne rfl
    | cons nh nt =>
      cases x with
      | nil => exact hx rfl
      | cons xh xt =>
        simp only [List.nil_append, List.cons_append, strStartsWith, Bool.and_eq_true,
          decide_eq_true_eq] at hsw
        exact hd xh (List.mem_cons_self xh xt) (List.mem_cons.mpr (Or.inl hsw.1.symm))
  | cons c a' ih =>
    intro needle hne hd hsw
    cases needle with
    | nil => exact absurd rfl hne
    | cons nh nt =>
      simp only [List.cons_append, strStartsWith, Bool.and_eq_true, decide_eq_true_eq] at hsw
      cases nt with
      | nil => exact Nat.succ_le_succ (Nat.zero_le _)
      | cons nt1 nt2 =>
        have hle := ih (nt1 :: nt2) (by simp)
          (fun ch hch hmem => hd ch hch (List.mem_cons_of_mem nh hmem)) hsw.2
        simpa using Nat.succ_le_succ hle

lemma replaceSubFuel_keeps_part (needle repl x : Str)
    (hd : ∀ ch ∈ x, ch ∉ needle) :
    ∀ fuel a b, x <:+: replaceSubFuel needle repl fuel (a ++ (x ++ b)) := by
  intro fuel
  induction fuel with
  | zero =>
    intro a b
    exact ⟨a, b, by simp [replaceSubFuel]⟩
  | succ fuel ih =>
    intro a b
    rcases eq_or_ne x [] with rfl | hx
    · exact ⟨[], replaceSubFuel needle repl (fuel + 1) (a ++ ([] ++ b)), by simp⟩
    cases a with
    | nil =>
      have h := replaceSubFuel_front needle repl x hd (fuel + 1) (x ++ b) ⟨b, rfl⟩
      obtain ⟨t, ht⟩ := h
      exact ⟨[], t, by simpa using ht⟩
    | cons c a' =>
      by_cases hcond : needle ≠ [] ∧ strStartsWith needle (c :: (a' ++ (x ++ b))) = true
      · have hlen : needle.length ≤ (c :: a').length :=
          strStartsWith_length_le x b hx (c :: a') needle hcond.1 hd (by simpa using hcond.2)
        have hdrop : ((c :: a') ++ (x ++ b)).drop needle.length
            = ((c :: a').drop needle.length) ++ (x ++ b) := by
          rw [List.drop_append_eq_append_drop, Nat.sub_eq_zero_of_le hlen, List.drop_zero]
        have hrec := ih ((c :: a').drop needle.length) b
        obtain ⟨s, t, hst⟩ := hrec
        refine ⟨repl ++ s, t, ?_⟩
        show (repl ++ s) ++ x ++ t = replaceSubFuel needle repl (fuel + 1) ((c :: a') ++ (x ++ b))
        simp only [List.cons_append, replaceSubFuel, List.append_eq]
        rw [if_pos hcond]
        rw [show (c :: (a' ++ (x ++ b))) = (c :: a') ++ (x ++ b) by simp, hdrop, ← hst]
        simp [List.append_assoc]
      · have hrec := ih a' b
        obtain ⟨s, t, hst⟩ := hrec
        refine ⟨c :: s, t, ?_⟩
        show (c :: s) ++ x ++ t = replaceSubFuel needle repl (fuel + 1) ((c :: a') ++ (x ++ b))
        simp only [List.cons_append, replaceSubFuel, List.append_eq]
        rw [if_neg hcond, ← hst]

lemma replaceSub_keeps_part (needle repl x l : Str)
    (hd : ∀ ch ∈ x, ch ∉ needle) (h : x <:+: l) :
    x <:+: replaceSub needle repl l := by
  obtain ⟨s, t, rfl⟩ := h
  have hk := replaceSubFuel_keeps_part needle repl x hd ((s ++ x ++ t).length) s t
  simpa [replaceSub, List.append_assoc] using hk

lemma dangerous_stripTicks (s : Str)
    (h : _is_potentially_dangerous s = true) :
    _is_potentially_dangerous (stripTicks s) = true := by
  rw [dangerous_char_iff] at h ⊢
  rcases h with h | ⟨library, hlib, hinf⟩
  · exact Or.inl (replaceSub_keeps_part _ _ _ _ (by decide) h)
  · have hcase : library = "shutil".data ∨ library = "requests".data ∨ library = "urllib".data := by
      simpa [blacklisted_libraries] using hlib
    refine Or.inr ⟨library, hlib, ?_⟩
    rcases hcase with rfl | rfl | rfl <;>
      exact replaceSub_keeps_part _ _ _ _ (by decide) hinf

/-- Suffix of the haystack strictly after the first occurrence of the needle,
none when the needle is absent; the first step of Python split(needle)[1]. -/
def dropThroughFirst (needle : Str) : Str → Option Str
  | [] => if needle = [] then some [] else none
  | c :: rest =>
    if strStartsWith needle (c :: rest) then some ((c :: rest).drop needle.length)
    else dropThroughFirst needle rest

/-- Portion of the haystack before its next occurrence of the needle (all of it
when the needle is absent), completing Python split semantics for one segment. -/
def takeUntilOcc (needle : Str) : Str → Str
  | [] => []
  | c :: rest =>
    if strStartsWith needle (c :: rest) then []
    else c :: takeUntilOcc needle rest

def isPySpace (c : Char) : Bool :=
  decide (c = ' ') || decide (c = '\t') || decide (c = '\n') || decide (c = '\r')

/-- Python str.strip on whitespace. -/
def stripWs (l : Str) : Str := ((l.dropWhile isPySpace).reverse.dropWhile isPySpace).reverse

/-- Digits-only reading of a decimal numeral. -/
def digitsToNat (l : Str) : Option Nat :=
  if l = [] then none
  else l.foldl (fun acc c =>
    match acc with
    | some a => if c.isDigit then some (a * 10 + (c.toNat - 48)) else none
    | none => none) (some 0)

/-- Python int() on a string: optional surrounding whitespace, an optional
sign, then decimal digits; none models ValueError. -/
def parsePyInt (l : Str) : Option Int :=
  match stripWs l with
  | '-' :: rest => (digitsToNat rest).map (fun n => -(n : Int))
  | '+' :: rest => (digitsToNat rest).map (fun n => (n : Int))
  | t => (digitsToNat t).map (fun n => (n : Int))

/-- Python list indexing with negative-index wraparound; none models IndexError. -/
def pyIndex (l : List Str) (i : Int) : Option Str :=
  if 0 ≤ i then l.get? i.toNat
  else if 0 ≤ i + (l.length : Int) then l.get? (i + (l.length : Int)).toNat
  else none

/-- Lines [3:5] of the raw trace joined by a newline, with the agent class name
rewritten to "env", following GPTSeleniumAgent.__get_relevant_part_of_stack_trace
(source lines 150-156). -/
def trimmedTrace (raw : Str) : Str :=
  replaceSub ("GPTSeleniumAgent".data) ("env".data)
    (List.intercalate ['\n'] (((List.splitOn '\n' raw).drop 3).take 2))

/-- Parse of the 1-based failing line number from the trimmed trace, Python
int(stack_trace.split("line ")[1].split(",")[0]) (source line 158); none models
the IndexError and ValueError paths. -/
def lineNumOf (st : Str) : Option Int :=
  match dropThroughFirst ("line ".data) st with
  | none => none
  | some seg => parsePyInt (takeUntilOcc [','] (takeUntilOcc ("line ".data) seg))

/-- Shallow embedding of GPTSeleniumAgent.__get_relevant_part_of_stack_trace
(source lines 148-159) over the raw traceback text. -/
def getRelevantPartOfStackTrace (raw : Str) : Option (Str × Int) :=
  match lineNumOf (trimmedTrace raw) with
  | none => none
  | some n => some (trimmedTrace raw, n)

/-- Newline normalization applied before reconstructing the failing line,
Python action.replace("\n\n", "\n") (source line 189). -/
def normalizeNewlines (action : Str) : Str :=
  replaceSub ('\n' :: '\n' :: []) ['\n'] action

/-- Reconstruction of the failing source line of the action text, Python
action.replace("\n\n", "\n").split("\n")[line_num - 1] (source line 189). -/
def reconstructLine (action : Str) (n : Int) : Option Str :=
  pyIndex (List.splitOn '\n' (normalizeNewlines action)) (n - 1)

lemma lineNumOf_ne_nil (st : Str) (n : Int) (h : lineNumOf st = some n) : st ≠ [] := by
  intro hnil
  subst hnil
  have hempty : lineNumOf ([] : Str) = none := by decide
  rw [hempty] at h
  cases h

/-- Claim C7: when the trimmed trace parses to failing line number 2 and the
newline-normalized action text has exactly 3 lines, the extracted diagnostic
carries that nonempty trimmed trace together with line number 2 (parsed after
the first occurrence of "line "), and the reconstructed failing line is exactly
the second line of the normalized action text. -/
theorem diagnostic_line_two (raw action : Str)
    (h2 : lineNumOf (trimmedTrace raw) = some 2)
    (h3 : (List.splitOn '\n' (normalizeNewlines action)).length = 3) :
    getRelevantPartOfStackTrace raw = some (trimmedTrace raw, 2) ∧
    trimmedTrace raw ≠ [] ∧
    ∃ l2, (List.splitOn '\n' (normalizeNewlines action)).get? 1 = some l2 ∧
      reconstructLine action 2 = some l2 := by
  refine ⟨?_, ?_, ?_⟩
  · simp [getRelevantPartOfStackTrace, h2]
  · exact lineNumOf_ne_nil _ _ h2
  · have hlt : 1 < (List.splitOn '\n' (normalizeNewlines action)).length := by omega
    refine ⟨(List.splitOn '\n' (normalizeNewlines action)).get ⟨1, hlt⟩, ?_, ?_⟩
    · exact List.get?_eq_get hlt
    · have h21 : ((2 : Int) - 1) = 1 := by norm_num
      unfold reconstructLine pyIndex
      rw [h21]
      simp only [if_pos (by norm_num : (0 : Int) ≤ 1), Int.toNat_one]
      exact List.get?_eq_get hlt

/-- Concrete raw traceback whose trimmed part names failing line 2. -/
def sampleRawTrace : Str :=
  ("Traceback (most recent call last):\n  File \"agent\", line 182, in step\n    run(action)\n  File \"<string>\", line 2, in <module>\nNameError: name is not defined").data

/-- Concrete three-line action text. -/
def sampleAction : Str := ("env.get(url)\nenv.click(button)\nenv.wait(1)").data

/-- Witness instantiating diagnostic_line_two at a concrete trace and action. -/
theorem diagnostic_line_two_witness :
    getRelevantPartOfStackTrace sampleRawTrace = some (trimmedTrace sampleRawTrace, 2) ∧
    trimmedTrace sampleRawTrace ≠ [] ∧
    ∃ l2, (List.splitOn '\n' (normalizeNewlines sampleAction)).get? 1 = some l2 ∧
      reconstructLine sampleAction 2 = some l2 :=
  diagnostic_line_two sampleRawTrace sampleAction (by decide) (by decide)

/-- Modelled from the spec: the engine-facing state of the external
InstructionCompiler (spec section 6; the compiler module itself is not under
src/) — whether a cached plan may be used, the cached Compiled Instruction
Set, and the pending instruction queue that step() drains front to back. -/
structure InstructionCompiler where
  use_compiled : Bool
  compiled_instructions : List Str
  instructions_queue : List Str

/-- Modelled from the spec: outcomes of the external collaborators during one
run — gen i a is the compiler's generated action text for instruction index i
at attempt a (a = 0 from step(), a from the a-th retry()), execOk i a says
whether executing that attempt's action succeeds, traceOf i a is the raw
traceback text captured when it fails, and execCompiledOk says whether
executing the concatenated cached plan succeeds. -/
structure Oracle where
  gen : Nat → Nat → Str
  execOk : Nat → Nat → Bool
  traceOf : Nat → Nat → Str
  execCompiledOk : Bool

/-- Outcome of one run() invocation: normal return, process exit via sys.exit,
or an uncaught exception propagating to the caller. -/
inductive RunOutcome
  | ok
  | exited (code : Nat)
  | crashed
  deriving DecidableEq, Repr

/-- Observable counters of one run() invocation. -/
structure RunStats where
  outcome : RunOutcome
  stepCalls : Nat
  retryCalls : Nat
  execCalls : Nat
  compiledExecCalls : Nat
  teardownCalls : Nat
  saveCalls : Nat
  processed : List Str
  deriving DecidableEq, Repr

/-- Result of the bounded attempt loop for one instruction. -/
structure InnerResult where
  execs : Nat
  retries : Nat
  crashed : Bool
  deriving DecidableEq, Repr

/-- One recovery step (source lines 184-192): extract the diagnostic from the
current traceback and reconstruct the failing action line; none models an
exception escaping the except-block (which aborts the run). -/
def recoverStep (o : Oracle) (i a : Nat) (action : Str) : Option Str :=
  match getRelevantPartOfStackTrace (o.traceOf i a) with
  | none => none
  | some stn => reconstructLine action stn.2

/-- The attempt loop of __step_through_instructions (source lines 178-201):
while attempts < 3, execute the current action; on failure run the recovery
step and fetch a corrected action from the compiler's retry(). The fuel is the
number of attempts left and a the 0-based attempt index. -/
def attemptLoop (o : Oracle) (i : Nat) : Nat → Nat → Str → InnerResult
  | 0, _, _ => ⟨0, 0, false⟩
  | fuel + 1, a, action =>
    if o.execOk i a then ⟨1, 0, false⟩
    else
      match recoverStep o i a action with
      | none => ⟨1, 0, true⟩
      | some _ =>
        let r := attemptLoop o i fuel (a + 1) (stripTicks (o.gen i (a + 1)))
        ⟨r.execs + 1, r.retries + 1, r.crashed⟩

/-- Python truthiness of the optional output file name (None and "" falsy). -/
def pyTruthyStr : Option Str → Bool
  | none => false
  | some f => !f.isEmpty

/-- Shallow embedding of GPTSeleniumAgent.__step_through_instructions (source
lines 161-208): drain the instruction queue front to back, dequeue each
instruction with a fresh action via step(), strip code fences, run the safety
gate (sys.exit(1) on rejection, modelled as outcome exited 1 with no teardown),
then run the bounded attempt loop; after the drain, optionally persist the
compiled set and tear down the session. i is the index of the next
instruction. -/
def stepLoopGo (o : Oracle) (outFile : Option Str) : List Str → Nat → RunStats
  | [], _ =>
    { outcome := RunOutcome.ok, stepCalls := 0, retryCalls := 0, execCalls := 0,
      compiledExecCalls := 0, teardownCalls := 1,
      saveCalls := if pyTruthyStr outFile then 1 else 0, processed := [] }
  | instr :: rest, i =>
    if _is_potentially_dangerous (stripTicks (o.gen i 0)) then
      { outcome := RunOutcome.exited 1, stepCalls := 1, retryCalls := 0, execCalls := 0,
        compiledExecCalls := 0, teardownCalls := 0, saveCalls := 0, processed := [instr] }
    else
      let r := attemptLoop o i 3 0 (stripTicks (o.gen i 0))
      if r.crashed then
        { outcome := RunOutcome.crashed, stepCalls := 1, retryCalls := r.retries,
          execCalls := r.execs, compiledExecCalls := 0, teardownCalls := 0,
          saveCalls := 0, processed := [instr] }
      else
        let tailStats := stepLoopGo o outFile rest (i + 1)
        { outcome := tailStats.outcome, stepCalls := tailStats.stepCalls + 1,
          retryCalls := tailStats.retryCalls + r.retries,
          execCalls := tailStats.execCalls + r.execs,
          compiledExecCalls := tailStats.compiledExecCalls,
          teardownCalls := tailStats.teardownCalls, saveCalls := tailStats.saveCalls,
          processed := instr :: tailStats.processed }

/-- The concatenated replay unit built in run(), Python
join of the compiled instructions with a newline then removal of code fences
(source line 219). -/
def replayUnit (c : InstructionCompiler) : Str :=
  stripTicks (List.intercalate ['\n'] c.compiled_instructions)

/-- Shallow embedding of GPTSeleniumAgent.__run_compiled_instructions (source
lines 135-140): safety-gate the unit, execute it once, then quit the driver;
an execution failure propagates and skips the teardown. -/
def runCompiled (o : Oracle) (instructions : Str) : RunStats :=
  if _is_potentially_dangerous instructions then
    { outcome := RunOutcome.exited 1, stepCalls := 0, retryCalls := 0, execCalls := 0,
      compiledExecCalls := 0, teardownCalls := 0, saveCalls := 0, processed := [] }
  else if o.execCompiledOk then
    { outcome := RunOutcome.ok, stepCalls := 0, retryCalls := 0, execCalls := 0,
      compiledExecCalls := 1, teardownCalls := 1, saveCalls := 0, processed := [] }
  else
    { outcome := RunOutcome.crashed, stepCalls := 0, retryCalls := 0, execCalls := 0,
      compiledExecCalls := 1, teardownCalls := 0, saveCalls := 0, processed := [] }

/-- Shallow embedding of GPTSeleniumAgent.run (source lines 212-223): replay
the cached plan when use_compiled is set and the Compiled Instruction Set is
nonempty (Python truthiness of the list), otherwise step through the
instruction queue. -/
def run (c : InstructionCompiler) (o : Oracle) (outFile : Option Str) : RunStats :=
  if c.use_compiled && !c.compiled_instructions.isEmpty then
    runCompiled o (replayUnit c)
  else
    stepLoopGo o outFile c.instructions_queue 0

/-- Configuration state produced by a successful engine construction. -/
structure Agent where
  instruction_output_file : Option Str
  debug : Bool
  headless : Bool
  driverOpened : Bool
  deriving DecidableEq, Repr

/-- Python s.endswith(ending). -/
def strEndsWith (ending s : Str) : Bool := strStartsWith ending.reverse s.reverse

/-- The construction-time assertion of GPTSeleniumAgent.__init__ (source lines
44-46): the output destination is None or a name ending in ".yaml". -/
def initAssertOk : Option Str → Bool
  | none => true
  | some f => strEndsWith (".yaml".data) f

/-- Shallow embedding of GPTSeleniumAgent.__init__ (source lines 33-62): the
assertion on the output destination runs first; only afterwards is the browser
session opened, so a failed assertion (modelled as the error branch) opens no
session. -/
def agentInit (out : Option Str) (headless debug : Bool) : Except Str Agent :=
  if initAssertOk out then
    Except.ok { instruction_output_file := out, debug := debug, headless := headless,
                driverOpened := true }
  else
    Except.error ("Instruction output file must be a YAML file or None.".data)

lemma attemptLoop_k_fail_then_ok (o : Oracle) (i : Nat) :
    ∀ k fuel a, k < fuel →
      (∀ j, j < k → o.execOk i (a + j) = false) →
      o.execOk i (a + k) = true →
      (∀ j, j < k → recoverStep o i (a + j) (stripTicks (o.gen i (a + j))) ≠ none) →
      attemptLoop o i fuel a (stripTicks (o.gen i a)) = ⟨k + 1, k, false⟩ := by
  intro k
  induction k with
  | zero =>
    intro fuel a hk _ hsucc _
    cases fuel with
    | zero => omega
    | succ fuel =>
      simp only [attemptLoop]
      rw [if_pos (by simpa using hsucc)]
  | succ k ih =>
    intro fuel a hk hfail hsucc hrec
    cases fuel with
    | zero => omega
    | succ fuel =>
      have h0 : o.execOk i a = false := by simpa using hfail 0 (Nat.succ_pos k)
      have hr0 : recoverStep o i a (stripTicks (o.gen i a)) ≠ none := by
        simpa using hrec 0 (Nat.succ_pos k)
      have hih : attemptLoop o i fuel (a + 1) (stripTicks (o.gen i (a + 1))) =
          ⟨k + 1, k, false⟩ := by
        refine ih fuel (a + 1) (by omega) ?_ ?_ ?_
        · intro j hj
          have e : a + 1 + j = a + (j + 1) := by omega
          rw [e]
          exact hfail (j + 1) (by omega)
        · have e : a + 1 + k = a + (k + 1) := by omega
          rw [e]
          exact hsucc
        · intro j hj
          have e : a + 1 + j = a + (j + 1) := by omega
          rw [e]
          exact hrec (j + 1) (by omega)
      simp only [attemptLoop]
      rw [if_neg (by simp [h0])]
      rcases hrs : recoverStep o i a (stripTicks (o.gen i a)) with _ | v
      · exact absurd hrs hr0
      · simp [hih]

lemma attemptLoop_all_fail (o : Oracle) (i : Nat) :
    ∀ fuel a,
      (∀ j, j < fuel → o.execOk i (a + j) = false) →
      (∀ j, j < fuel → recoverStep o i (a + j) (stripTicks (o.gen i (a + j))) ≠ none) →
      attemptLoop o i fuel a (stripTicks (o.gen i a)) = ⟨fuel, fuel, false⟩ := by
  intro fuel
  induction fuel with
  | zero => intro a _ _; rfl
  | succ fuel ih =>
    intro a hfail hrec
    have h0 : o.execOk i a = false := by simpa using hfail 0 (Nat.succ_pos fuel)
    have hr0 : recoverStep o i a (stripTicks (o.gen i a)) ≠ none := by
      simpa using hrec 0 (Nat.succ_pos fuel)
    have hih : attemptLoop o i fuel (a + 1) (stripTicks (o.gen i (a + 1))) =
        ⟨fuel, fuel, false⟩ := by
      refine ih (a + 1) ?_ ?_
      · intro j hj
        have e : a + 1 + j = a + (j + 1) := by omega
        rw [e]
        exact hfail (j + 1) (by omega)
      · intro j hj
        have e : a + 1 + j = a + (j + 1) := by omega
        rw [e]
        exact hrec (j + 1) (by omega)
    simp only [attemptLoop]
    rw [if_neg (by simp [h0])]
    rcases hrs : recoverStep o i a (stripTicks (o.gen i a)) with _ | v
    · exact absurd hrs hr0
    · simp [hih]

/-- Oracle whose first instruction always fails with a recoverable trace while
the second instruction succeeds immediately. -/
def c1Oracle : Oracle :=
  { gen := fun _ _ => sampleAction, execOk := fun i _ => decide (i = 1),
    traceOf := fun _ _ => sampleRawTrace, execCompiledOk := true }

/-- Compiler state with no cache and two queued instructions. -/
def c1Compiler : InstructionCompiler :=
  { use_compiled := false, compiled_instructions := [],
    instructions_queue := ["one".data, "two".data] }

/-- Claim C1 is false as stated: at this configuration the first instruction's
generated actions fail three (budget) times consecutively, yet retry is called
3 times rather than budget - 1 = 2, no failure propagates to the caller of
run(), and the loop silently continues and consumes the next instruction. -/
theorem retry_budget_counterexample :
    (run c1Compiler c1Oracle none).retryCalls = 3 ∧
    ¬(run c1Compiler c1Oracle none).retryCalls = 2 ∧
    (run c1Compiler c1Oracle none).outcome = RunOutcome.ok ∧
    (run c1Compiler c1Oracle none).stepCalls = 2 := by decide

/-- Claim C1 (amended): for an instruction whose generated actions fail three
(budget) times consecutively with successful diagnostic recovery, the step
loop calls retry exactly 3 times — once per failed attempt, including after
the final one, whose regenerated action is never executed — and then silently
continues with the remaining instructions; no failure propagates. -/
theorem step_loop_exhausted_budget_amended (o : Oracle) (f : Option Str)
    (instr : Str) (rest : List Str) (i : Nat)
    (hsafe : _is_potentially_dangerous (stripTicks (o.gen i 0)) = false)
    (hfail : ∀ j, j < 3 → o.execOk i j = false)
    (hrec : ∀ j, j < 3 → recoverStep o i j (stripTicks (o.gen i j)) ≠ none) :
    stepLoopGo o f (instr :: rest) i =
      { outcome := (stepLoopGo o f rest (i + 1)).outcome,
        stepCalls := (stepLoopGo o f rest (i + 1)).stepCalls + 1,
        retryCalls := (stepLoopGo o f rest (i + 1)).retryCalls + 3,
        execCalls := (stepLoopGo o f rest (i + 1)).execCalls + 3,
        compiledExecCalls := (stepLoopGo o f rest (i + 1)).compiledExecCalls,
        teardownCalls := (stepLoopGo o f rest (i + 1)).teardownCalls,
        saveCalls := (stepLoopGo o f rest (i + 1)).saveCalls,
        processed := instr :: (stepLoopGo o f rest (i + 1)).processed } := by
  have hal := attemptLoop_all_fail o i 3 0
    (fun j hj => by simpa using hfail j hj)
    (fun j hj => by simpa using hrec j hj)
  simp only [stepLoopGo]
  rw [if_neg (by simp [hsafe]), hal]
  rfl

/-- Witness for the amended claim C1 at the concrete failing oracle. -/
theorem step_loop_exhausted_budget_amended_witness :
    stepLoopGo c1Oracle none ("one".data :: ["two".data]) 0 =
      { outcome := (stepLoopGo c1Oracle none ["two".data] 1).outcome,
        stepCalls := (stepLoopGo c1Oracle none ["two".data] 1).stepCalls + 1,
        retryCalls := (stepLoopGo c1Oracle none ["two".data] 1).retryCalls + 3,
        execCalls := (stepLoopGo c1Oracle none ["two".data] 1).execCalls + 3,
        compiledExecCalls := (stepLoopGo c1Oracle none ["two".data] 1).compiledExecCalls,
        teardownCalls := (stepLoopGo c1Oracle none ["two".data] 1).teardownCalls,
        saveCalls := (stepLoopGo c1Oracle none ["two".data] 1).saveCalls,
        processed := "one".data :: (stepLoopGo c1Oracle none ["two".data] 1).processed } :=
  step_loop_exhausted_budget_amended c1Oracle none ("one".data) ["two".data] 0
    (by decide) (fun j hj => rfl) (fun j hj => Option.ne_none_iff_isSome.mpr rfl)

/-- Claim C5: for an instruction whose first K generated actions fail
(K < budget 3) with successful diagnostic recovery and whose (K+1)-th
generated action succeeds, the step loop calls retry exactly K times, dequeues
no further instruction during the retries, and then advances to the next
instruction. -/
theorem step_loop_retry_k_then_advance (o : Oracle) (f : Option Str)
    (instr : Str) (rest : List Str) (i K : Nat)
    (hK : K < 3)
    (hsafe : _is_potentially_dangerous (stripTicks (o.gen i 0)) = false)
    (hfail : ∀ j, j < K → o.execOk i j = false)
    (hsucc : o.execOk i K = true)
    (hrec : ∀ j, j < K → recoverStep o i j (stripTicks (o.gen i j)) ≠ none) :
    stepLoopGo o f (instr :: rest) i =
      { outcome := (stepLoopGo o f rest (i + 1)).outcome,
        stepCalls := (stepLoopGo o f rest (i + 1)).stepCalls + 1,
        retryCalls := (stepLoopGo o f rest (i + 1)).retryCalls + K,
        execCalls := (stepLoopGo o f rest (i + 1)).execCalls + (K + 1),
        compiledExecCalls := (stepLoopGo o f rest (i + 1)).compiledExecCalls,
        teardownCalls := (stepLoopGo o f rest (i + 1)).teardownCalls,
        saveCalls := (stepLoopGo o f rest (i + 1)).saveCalls,
        processed := instr :: (stepLoopGo o f rest (i + 1)).processed } := by
  have hal := attemptLoop_k_fail_then_ok o i K 3 0 hK
    (fun j hj => by simpa using hfail j hj)
    (by simpa using hsucc)
    (fun j hj => by simpa using hrec j hj)
  simp only [stepLoopGo]
  rw [if_neg (by simp [hsafe]), hal]
  rfl

/-- Oracle whose every instruction fails its first attempt (with a recoverable
trace) and succeeds at the second. -/
def c5Oracle : Oracle :=
  { gen := fun _ _ => sampleAction, execOk := fun _ a => decide (a = 1),
    traceOf := fun _ _ => sampleRawTrace, execCompiledOk := true }

/-- Witness for claim C5 with K = 1 at a concrete oracle. -/
theorem step_loop_retry_k_then_advance_witness :
    stepLoopGo c5Oracle none ("one".data :: []) 0 =
      { outcome := (stepLoopGo c5Oracle none [] 1).outcome,
        stepCalls := (stepLoopGo c5Oracle none [] 1).stepCalls + 1,
        retryCalls := (stepLoopGo c5Oracle none [] 1).retryCalls + 1,
        execCalls := (stepLoopGo c5Oracle none [] 1).execCalls + (1 + 1),
        compiledExecCalls := (stepLoopGo c5Oracle none [] 1).compiledExecCalls,
        teardownCalls := (stepLoopGo c5Oracle none [] 1).teardownCalls,
        saveCalls := (stepLoopGo c5Oracle none [] 1).saveCalls,
        processed := "one".data :: (stepLoopGo c5Oracle none [] 1).processed } :=
  step_loop_retry_k_then_advance c5Oracle none ("one".data) [] 0 1
    (by omega) (by decide)
    (fun j hj => by
      have hj0 : j = 0 := by omega
      subst hj0
      rfl)
    (by decide)
    (fun j hj => by
      have hj0 : j = 0 := by omega
      subst hj0
      exact Option.ne_none_iff_isSome.mpr rfl)

lemma stepLoop_first_try_aux (o : Oracle) (f : Option Str)
    (hok : ∀ i, o.execOk i 0 = true)
    (hsafe : ∀ i, _is_potentially_dangerous (stripTicks (o.gen i 0)) = false) :
    ∀ queue i, stepLoopGo o f queue i =
      { outcome := RunOutcome.ok, stepCalls := queue.length, retryCalls := 0,
        execCalls := queue.length, compiledExecCalls := 0, teardownCalls := 1,
        saveCalls := if pyTruthyStr f then 1 else 0, processed := queue } := by
  intro queue
  induction queue with
  | nil => intro i; rfl
  | cons instr rest ih =>
    intro i
    have hal := attemptLoop_k_fail_then_ok o i 0 3 0 (by omega)
      (fun j hj => absurd hj (Nat.not_lt_zero j))
      (by simpa using hok i)
      (fun j hj => absurd hj (Nat.not_lt_zero j))
    simp only [stepLoopGo]
    rw [if_neg (by simp [hsafe i]), hal, ih (i + 1)]
    simp

/-- Claim C6: when the cache is not used and every instruction's first
generated action is safe and succeeds on its first execution attempt, run()
executes exactly N = queue-length actions, consumes exactly those N
instructions in strict queue order, and never calls retry. -/
theorem step_loop_all_first_try (c : InstructionCompiler) (o : Oracle) (f : Option Str)
    (hnc : c.use_compiled = false)
    (hok : ∀ i, o.execOk i 0 = true)
    (hsafe : ∀ i, _is_potentially_dangerous (stripTicks (o.gen i 0)) = false) :
    run c o f =
      { outcome := RunOutcome.ok, stepCalls := c.instructions_queue.length,
        retryCalls := 0, execCalls := c.instructions_queue.length,
        compiledExecCalls := 0, teardownCalls := 1,
        saveCalls := if pyTruthyStr f then 1 else 0,
        processed := c.instructions_queue } := by
  unfold run
  rw [if_neg (by simp [hnc])]
  exact stepLoop_first_try_aux o f hok hsafe c.instructions_queue 0

/-- Oracle whose every action is safe and succeeds immediately. -/
def c6Oracle : Oracle :=
  { gen := fun _ _ => sampleAction, execOk := fun _ _ => true,
    traceOf := fun _ _ => sampleRawTrace, execCompiledOk := true }

/-- Compiler state with three queued instructions and no cache. -/
def c6Compiler : InstructionCompiler :=
  { use_compiled := false, compiled_instructions := [],
    instructions_queue := ["one".data, "two".data, "three".data] }

/-- Witness for claim C6 at a three-instruction queue. -/
theorem step_loop_all_first_try_witness :
    run c6Compiler c6Oracle none =
      { outcome := RunOutcome.ok, stepCalls := c6Compiler.instructions_queue.length,
        retryCalls := 0, execCalls := c6Compiler.instructions_queue.length,
        compiledExecCalls := 0, teardownCalls := 1,
        saveCalls := if pyTruthyStr none then 1 else 0,
        processed := c6Compiler.instructions_queue } :=
  step_loop_all_first_try c6Compiler c6Oracle none rfl (fun _ => rfl) (fun _ => rfl)

lemma stepLoop_teardown_iff_ok (o : Oracle) (f : Option Str) :
    ∀ queue i, (stepLoopGo o f queue i).teardownCalls =
      (if (stepLoopGo o f queue i).outcome = RunOutcome.ok then 1 else 0) := by
  intro queue
  induction queue with
  | nil => intro i; rfl
  | cons instr rest ih =>
    intro i
    simp only [stepLoopGo]
    by_cases hd : _is_potentially_dangerous (stripTicks (o.gen i 0)) = true
    · rw [if_pos hd]
      rfl
    · rw [if_neg hd]
      by_cases hc : (attemptLoop o i 3 0 (stripTicks (o.gen i 0))).crashed = true
      · rw [if_pos hc]
        rfl
      · rw [if_neg hc]
        exact ih (i + 1)

/-- Claim C2 (amended): session teardown is performed exactly once when run()
returns normally (on either path), and not at all when the run aborts via the
safety gate's process exit or a propagated execution failure. -/
theorem teardown_exactly_on_normal_return (c : InstructionCompiler) (o : Oracle)
    (f : Option Str) :
    (run c o f).teardownCalls =
      (if (run c o f).outcome = RunOutcome.ok then 1 else 0) := by
  unfold run
  by_cases h : (c.use_compiled && !c.compiled_instructions.isEmpty) = true
  · rw [if_pos h]
    unfold runCompiled
    by_cases h1 : _is_potentially_dangerous (replayUnit c) = true
    · rw [if_pos h1]
      rfl
    · rw [if_neg h1]
      by_cases h2 : o.execCompiledOk = true
      · rw [if_pos h2]
        rfl
      · rw [if_neg h2]
        rfl
  · rw [if_neg h]
    exact stepLoop_teardown_iff_ok o f c.instructions_queue 0

/-- Compiler state with a nonempty cached plan and caching enabled. -/
def c2Compiler : InstructionCompiler :=
  { use_compiled := true, compiled_instructions := ["env.wait(1)".data],
    instructions_queue := [] }

/-- Oracle whose replay execution fails. -/
def c2Oracle : Oracle :=
  { gen := fun _ _ => [], execOk := fun _ _ => true, traceOf := fun _ _ => [],
    execCompiledOk := false }

/-- Claim C2 is false as stated: at this configuration the replay execution
fails, the failure propagates to the caller, and teardown is performed zero
times rather than exactly once. -/
theorem teardown_counterexample :
    (run c2Compiler c2Oracle none).outcome = RunOutcome.crashed ∧
    (run c2Compiler c2Oracle none).teardownCalls = 0 ∧
    ¬(run c2Compiler c2Oracle none).teardownCalls = 1 := by decide

/-- Claim C4 (amended): run() takes the replay path exactly when caching is
enabled and the compiled instruction set is nonempty; in that case it never
invokes step() or retry, builds the unit by joining the cached actions in
order and stripping code fences, runs the safety gate first on that unit
(process exit 1 with no execution on rejection), otherwise executes the unit
exactly once and performs teardown only when that execution succeeds; in every
other case the step loop runs. -/
theorem run_replay_selection_amended (c : InstructionCompiler) (o : Oracle)
    (f : Option Str) :
    run c o f =
      (if c.use_compiled && !c.compiled_instructions.isEmpty then
        { outcome :=
            if _is_potentially_dangerous (replayUnit c) then RunOutcome.exited 1
            else if o.execCompiledOk then RunOutcome.ok else RunOutcome.crashed,
          stepCalls := 0, retryCalls := 0, execCalls := 0,
          compiledExecCalls := if _is_potentially_dangerous (replayUnit c) then 0 else 1,
          teardownCalls :=
            if _is_potentially_dangerous (replayUnit c) = false ∧ o.execCompiledOk = true
            then 1 else 0,
          saveCalls := 0, processed := [] }
      else stepLoopGo o f c.instructions_queue 0) := by
  unfold run runCompiled
  by_cases h : (c.use_compiled && !c.compiled_instructions.isEmpty) = true
  · rw [if_pos h, if_pos h]
    by_cases h1 : _is_potentially_dangerous (replayUnit c) = true
    · simp [h1]
    · by_cases h2 : o.execCompiledOk = true <;> simp [h1, h2]
  · rw [if_neg h, if_neg h]

/-- Compiler state with caching enabled, a nonempty safe cached plan, and a
nonempty queue. -/
def c4Compiler : InstructionCompiler :=
  { use_compiled := true, compiled_instructions := ["env.get(url)".data],
    instructions_queue := ["unused".data] }

/-- Oracle whose replay execution fails. -/
def c4Oracle : Oracle :=
  { gen := fun _ _ => [], execOk := fun _ _ => true, traceOf := fun _ _ => [],
    execCompiledOk := false }

/-- Claim C4 is false as stated: with caching enabled and a nonempty compiled
set the replay path runs (step() is never called and the unit is executed
exactly once), but the replay execution fails and no teardown is performed,
contradicting the claimed unconditional teardown of the replay path. -/
theorem replay_path_counterexample :
    (run c4Compiler c4Oracle none).stepCalls = 0 ∧
    (run c4Compiler c4Oracle none).compiledExecCalls = 1 ∧
    (run c4Compiler c4Oracle none).teardownCalls = 0 ∧
    ¬(run c4Compiler c4Oracle none).teardownCalls = 1 := by decide

/-- Claim C8: when the safety gate rejects the (fence-stripped) action text of
the instruction at the head of the queue, the step loop terminates the process
with exit status 1 immediately: no retry, no execution, no teardown, no save,
and no further instruction is consumed — the whole run aborts, not just the
current step. -/
theorem safety_gate_abort_step_loop (o : Oracle) (f : Option Str)
    (instr : Str) (rest : List Str) (i : Nat)
    (hdanger : _is_potentially_dangerous (stripTicks (o.gen i 0)) = true) :
    stepLoopGo o f (instr :: rest) i =
      { outcome := RunOutcome.exited 1, stepCalls := 1, retryCalls := 0,
        execCalls := 0, compiledExecCalls := 0, teardownCalls := 0,
        saveCalls := 0, processed := [instr] } := by
  simp only [stepLoopGo]
  rw [if_pos hdanger]

/-- Oracle generating a denylisted action text. -/
def c8Oracle : Oracle :=
  { gen := fun _ _ => ("import os").data, execOk := fun _ _ => true,
    traceOf := fun _ _ => [], execCompiledOk := true }

/-- Witness for claim C8 at a concrete rejected action. -/
theorem safety_gate_abort_step_loop_witness :
    stepLoopGo c8Oracle none ("one".data :: ["two".data]) 0 =
      { outcome := RunOutcome.exited 1, stepCalls := 1, retryCalls := 0,
        execCalls := 0, compiledExecCalls := 0, teardownCalls := 0,
        saveCalls := 0, processed := ["one".data] } :=
  safety_gate_abort_step_loop c8Oracle none ("one".data) ["two".data] 0 (by decide)

/-- Claim C9: when caching is enabled, the compiled set is nonempty, and the
newline-joined concatenation of the cached actions is flagged by the safety
predicate (it contains "import " or a denylisted library name), run() exits
the process with status 1 from the safety gate before executing any cached
action, and performs no teardown. -/
theorem replay_safety_gate_blocks (c : InstructionCompiler) (o : Oracle)
    (f : Option Str)
    (hu : c.use_compiled = true)
    (hne : c.compiled_instructions ≠ [])
    (hd : _is_potentially_dangerous (List.intercalate ['\n'] c.compiled_instructions) = true) :
    run c o f =
      { outcome := RunOutcome.exited 1, stepCalls := 0, retryCalls := 0,
        execCalls := 0, compiledExecCalls := 0, teardownCalls := 0,
        saveCalls := 0, processed := [] } := by
  have hd2 : _is_potentially_dangerous (replayUnit c) = true :=
    dangerous_stripTicks _ hd
  unfold run runCompiled
  rw [if_pos (by simp [hu, List.isEmpty_iff, hne]), if_pos hd2]

/-- Compiler state caching a dangerous plan. -/
def c9Compiler : InstructionCompiler :=
  { use_compiled := true, compiled_instructions := ["import os".data],
    instructions_queue := [] }

/-- Oracle for the cached-plan witness. -/
def c9Oracle : Oracle :=
  { gen := fun _ _ => [], execOk := fun _ _ => true, traceOf := fun _ _ => [],
    execCompiledOk := true }

/-- Witness for claim C9 at a concrete dangerous cached plan. -/
theorem replay_safety_gate_blocks_witness :
    run c9Compiler c9Oracle none =
      { outcome := RunOutcome.exited 1, stepCalls := 0, retryCalls := 0,
        execCalls := 0, compiledExecCalls := 0, teardownCalls := 0,
        saveCalls := 0, processed := [] } :=
  replay_safety_gate_blocks c9Compiler c9Oracle none rfl (by decide) (by decide)

/-- Claim C10: constructing the engine with a persistence destination that is
neither None nor a name ending in ".yaml" fails the construction-time
assertion, and no engine (hence no opened browser session and no later
persistence step) can result from such a construction. -/
theorem init_rejects_non_yaml (f : Str) (headless debug : Bool)
    (h : strEndsWith (".yaml".data) f = false) :
    agentInit (some f) headless debug =
      Except.error ("Instruction output file must be a YAML file or None.".data) ∧
    ∀ a : Agent, agentInit (some f) headless debug ≠ Except.ok a := by
  have hbad : initAssertOk (some f) = false := by simp [initAssertOk, h]
  refine ⟨?_, ?_⟩
  · unfold agentInit
    rw [if_neg (by simp [hbad])]
  · intro a hcontra
    unfold agentInit at hcontra
    rw [if_neg (by simp [hbad])] at hcontra
    cases hcontra

/-- Witness for claim C10 at a concrete non-YAML destination. -/
theorem init_rejects_non_yaml_witness :
    agentInit (some ("instructions.json".data)) false false =
      Except.error ("Instruction output file must be a YAML file or None.".data) ∧
    ∀ a : Agent,
      agentInit (some ("instructions.json".data)) false false ≠ Except.ok a :=
  init_rejects_non_yaml ("instructions.json".data) false false (by decide)

end BrowserPilot
